import Mathlib

/-!
Shallow embedding of the conditional validation rules of
`basemodels/manifest/manifest.py` (hmt-basemodels), together with the
document walker `traverse_json_entries` and the post-fetch entry-count
check of `validate_manifest_uris`.

Python `dict`s are modelled as insertion-ordered association lists,
`None`-able fields as `Option`, and Python truthiness of the relevant
shapes (`None`, empty string, empty list, empty dict are falsy) by the
`optStrTruthy` / `optListTruthy` helpers.  A validator that can raise
`ValidationError(msg)` is modelled as a function into `Except String`,
carrying the exact message string of the source.
-/

namespace Basemodels

/-- Python dict with string keys, modelled as an insertion-ordered
association list. -/
abbrev Dict (α : Type) := List (String × α)

/-- Python truthiness of an optional string: `None` and the empty string
are falsy. -/
def optStrTruthy : Option String → Bool
  | none => false
  | some s => !s.isEmpty

/-- Python truthiness of an optional list (or dict): `None` and the empty
list are falsy. -/
def optListTruthy : Option (List α) → Bool
  | none => false
  | some l => !l.isEmpty

/-- Length of `value.keys()` for an optional dict, with `None` counting
as 0 (in the source, short-circuit evaluation prevents `len(None)` from
ever being reached). -/
def rasLen : Option (Dict (Dict String)) → Nat
  | none => 0
  | some d => d.length

/-- Entry of the `taskdata` list (model `TaskData` in the source).
`datapoint_hash` is a plain required string field; it takes no part in
the conditional rules modelled here. -/
structure TaskData where
  task_key : String
  datapoint_uri : Option String
  datapoint_hash : String
  datapoint_text : Option (Dict String)
  deriving Repr, DecidableEq

/-- Value of the `requester_question_example` union field: a single URL
string or a list of URL strings. -/
inductive QuestionExample where
  | url (s : String)
  | list (xs : List String)
  deriving Repr, DecidableEq

/-- Nested manifest entry of `multi_challenge_manifests`.  The validators
modelled here inspect only the emptiness of that list, so the entry is
abstracted to its own request type. -/
structure NestedManifest where
  request_type : String
  deriving Repr, DecidableEq

/-- The data mapping a schematics validator receives for a `Manifest`,
restricted to the fields the modelled conditional rules read.  `none`
stands for an absent key.  The source reads
`multiple_choice_min_choices` / `multiple_choice_max_choices` from this
mapping with default 1 (the same default the `RequestConfig` model
declares for those fields). -/
structure ManifestData where
  request_type : Option String
  multi_challenge_manifests : Option (List NestedManifest)
  multiple_choice_min_choices : Option Int
  multiple_choice_max_choices : Option Int
  requester_restricted_answer_set : Option (Dict (Dict String))
  requester_question_example : Option QuestionExample
  taskdata : Option (List TaskData)
  taskdata_uri : Option String
  groundtruth : Option String
  groundtruth_uri : Option String
  deriving Repr, DecidableEq

/-- Embedding of `validate_request_type` (manifest.py lines 44-60):
`request_type` must be present (truthy); `multi_challenge` requires a
non-empty `multi_challenge_manifests`; the two multiple-choice job types
require `multiple_choice_min_choices <= multiple_choice_max_choices`,
both defaulting to 1 when the key is absent. -/
def validate_request_type (data : ManifestData) : Except String Unit :=
  if ¬ optStrTruthy data.request_type then
    .error "request_type missing"
  else if data.request_type = some "multi_challenge" then
    if ¬ optListTruthy data.multi_challenge_manifests then
      .error "multi_challenge requires multi_challenge_manifests."
    else
      .ok ()
  else if data.request_type = some "image_label_multiple_choice" ∨
          data.request_type = some "image_label_area_select" then
    if data.multiple_choice_min_choices.getD 1 > data.multiple_choice_max_choices.getD 1 then
      .error "multiple_choice_min_choices cannot be greater than multiple_choice_max_choices"
    else
      .ok ()
  else
    .ok ()

/-- The synthetic answer set `{"label": {}}` injected for
`image_label_area_select` when the answer set is absent or empty. -/
def syntheticLabelSet : Dict (Dict String) := [("label", [])]

/-- Normalization step of `validate_requester_restricted_answer_set`
(manifest.py lines 236-239): for `image_label_area_select` with an
absent or empty value, both the local value and the document entry are
rewritten to the synthetic set. -/
def rasAreaSelectStep (data : ManifestData) (value : Option (Dict (Dict String))) :
    ManifestData × Option (Dict (Dict String)) :=
  if data.request_type = some "image_label_area_select" ∧
      (¬ optListTruthy value ∨ rasLen value = 0) then
    ({ data with requester_restricted_answer_set := some syntheticLabelSet },
      some syntheticLabelSet)
  else
    (data, value)

/-- Cardinality check of `validate_requester_restricted_answer_set`
(manifest.py lines 241-249): for `image_label_multiple_choice` the value
must hold between 2 and 4 keys inclusive. -/
def rasMultipleChoiceCheck (rt : Option String)
    (value : Option (Dict (Dict String))) : Except String Unit :=
  if rt = some "image_label_multiple_choice" then
    if ¬ optListTruthy value ∨ rasLen value ≤ 1 then
      .error "image_label_multiple_choice needs at least 2+ options in requester_restricted_answer_set"
    else if rasLen value > 4 then
      .error "image_label_multiple_choice can not handle more than 4 options requester_restricted_answer_set"
    else
      .ok ()
  else
    .ok ()

/-- Embedding of `Manifest.validate_requester_restricted_answer_set`
(manifest.py lines 230-250).  The rule receives the document data and the
field value; the in-place rewrite of the document performed by the
normalization step is modelled by returning the updated document
alongside the (possibly rewritten) value.  The cardinality check reads
`request_type` from the document, which the normalization step never
touches. -/
def validate_requester_restricted_answer_set (data : ManifestData)
    (value : Option (Dict (Dict String))) :
    Except String (ManifestData × Option (Dict (Dict String))) :=
  if ¬ optStrTruthy data.request_type then
    .error "request_type missing"
  else
    match rasMultipleChoiceCheck data.request_type (rasAreaSelectStep data value).2 with
    | .error e => .error e
    | .ok () => .ok (rasAreaSelectStep data value)

/-- Embedding of `validate_requester_question_example` (manifest.py lines
261-271): a list-shaped value is only allowed for
`image_label_area_select` and `image_label_binary`. -/
def validate_requester_question_example (data : ManifestData)
    (value : Option QuestionExample) : Except String Unit :=
  if ¬ optStrTruthy data.request_type then
    .error "request_type missing"
  else
    match value with
    | some (.list _) =>
      if ¬ (data.request_type = some "image_label_area_select" ∨
            data.request_type = some "image_label_binary") then
        .error "Lists are not allowed in this challenge type"
      else
        .ok ()
    | _ => .ok ()

/-- Embedding of `Manifest.validate_groundtruth` (manifest.py lines
313-316): `groundtruth_uri` and `groundtruth` are mutually exclusive. -/
def validate_groundtruth (data : ManifestData) : Except String Unit :=
  if optStrTruthy data.groundtruth_uri ∧ optStrTruthy data.groundtruth then
    .error "Specify only groundtruth_uri or groundtruth, not both."
  else
    .ok ()

/-- The error message of `validate_taskdata_uri`, built by the source
from both offending values with `str.format`. -/
def taskdataUriErrorMsg (td : List TaskData) (uri : String) : String :=
  "Specify only one of taskdata " ++ toString (repr td) ++ " or taskdata_uri " ++ uri

/-- Embedding of `Manifest.validate_taskdata_uri` (manifest.py lines
328-335): fails only when `taskdata` is truthy (present and non-empty)
with positive length and `taskdata_uri` is truthy, citing both values in
the message. -/
def validate_taskdata_uri (data : ManifestData) : Except String Unit :=
  if optListTruthy data.taskdata ∧ (data.taskdata.getD []).length > 0 ∧
      optStrTruthy data.taskdata_uri then
    .error (taskdataUriErrorMsg (data.taskdata.getD []) (data.taskdata_uri.getD ""))
  else
    .ok ()

/-- Embedding of `TaskData.validate_datapoint_uri` (manifest.py lines
84-94): with no truthy `datapoint_text`, `datapoint_uri` must be present
(truthy) and at least 10 characters long. -/
def validate_datapoint_uri (data : TaskData) (value : Option String) :
    Except String Unit :=
  if ¬ optStrTruthy value ∧ ¬ optListTruthy data.datapoint_text then
    .error "datapoint_uri is missing."
  else if optStrTruthy value ∧ (value.getD "").length < 10 ∧
      ¬ optListTruthy data.datapoint_text then
    .error "datapoint_uri length is less than 10"
  else
    .ok ()

/-- The in-process conditional rule stage of `Manifest` validation: the
custom validators of the `Manifest` class run in field declaration order
(`requester_restricted_answer_set`, `requester_question_example`,
`request_type`, `taskdata`, `taskdata_uri`, `groundtruth`), each reading
the document data; the restricted-answer-set rule may rewrite the
document, and the rewritten document is what the later rules and the
caller observe.  `validate_taskdata` and `validate_taskdata_uri` are the
same function in the source, attached to two fields, hence run twice. -/
def run_manifest_rules (data : ManifestData) : Except String ManifestData :=
  (validate_requester_restricted_answer_set data data.requester_restricted_answer_set).bind
    fun p =>
      (validate_requester_question_example p.1 p.1.requester_question_example).bind fun _ =>
      (validate_request_type p.1).bind fun _ =>
      (validate_taskdata_uri p.1).bind fun _ =>
      (validate_taskdata_uri p.1).bind fun _ =>
      (validate_groundtruth p.1).bind fun _ =>
      .ok p.1

/-- JSON values, as decoded by `response.json()` in the source. -/
inductive Json where
  | null
  | bool (b : Bool)
  | num (n : Int)
  | str (s : String)
  | arr (xs : List Json)
  | obj (fields : List (String × Json))
  deriving Repr

/-- Loop body of `traverse_json_entries`: iterate the top-level entries
in document order, calling the callback with the current content-type
flag and clearing the flag after the first call; the running count is
incremented per entry.  The Python callback is a closure with effects
and may raise, which is modelled by threading a state `σ` through an
`Except`-valued callback. -/
def traverseLoop (callback : σ → Option String → Json → Bool → Except String σ) :
    σ → List (Option String × Json) → Bool → Nat → Except String (σ × Nat)
  | st, [], _, count => .ok (st, count)
  | st, (k, v) :: rest, flag, count =>
    match callback st k v flag with
    | .error e => .error e
    | .ok st1 => traverseLoop callback st1 rest false (count + 1)

/-- Embedding of `traverse_json_entries` (manifest.py lines 342-366):
a dict contributes its `(key, value)` pairs, a list its elements with
key `None`; any other JSON shape is skipped and the initial count 0 is
returned. -/
def traverse_json_entries (data : Json) (st : σ)
    (callback : σ → Option String → Json → Bool → Except String σ)
    (validate_image_content_type : Bool) : Except String (σ × Nat) :=
  match data with
  | .obj fields =>
    traverseLoop callback st (fields.map fun kv => (some kv.1, kv.2))
      validate_image_content_type 0
  | .arr xs =>
    traverseLoop callback st (xs.map fun v => (none, v))
      validate_image_content_type 0
  | _ => .ok (st, 0)

/-- Post-fetch part of `validate_manifest_uris` (manifest.py lines
385-394) for one URI key, taking the decoded response body: a callback
failure is wrapped as a validation failure of the key, and a traversal
that visits zero entries is rejected as empty. -/
def validate_fetched_entries (uri_key : String) (body : Json) (st : σ)
    (callback : σ → Option String → Json → Bool → Except String σ)
    (validate_image_content_type : Bool) : Except String Nat :=
  match traverse_json_entries body st callback validate_image_content_type with
  | .error e => .error (uri_key ++ " validation failed: " ++ e)
  | .ok (_, entries_count) =>
    if entries_count = 0 then .error ("fetched " ++ uri_key ++ " is empty")
    else .ok entries_count

/-- Recording callback used to observe the calls a traversal makes: it
always succeeds and appends the call's arguments to the trace. -/
def recordEntry (st : List (Option String × Json × Bool)) (k : Option String)
    (v : Json) (flag : Bool) : Except String (List (Option String × Json × Bool)) :=
  .ok (st ++ [(k, v, flag)])

/-- Manifest data mapping with every key absent, the base point for
concrete examples. -/
def emptyManifestData : ManifestData :=
  { request_type := none, multi_challenge_manifests := none,
    multiple_choice_min_choices := none, multiple_choice_max_choices := none,
    requester_restricted_answer_set := none, requester_question_example := none,
    taskdata := none, taskdata_uri := none, groundtruth := none,
    groundtruth_uri := none }

lemma optListTruthy_length_pos (v : Option (List α)) (h : optListTruthy v) :
    0 < (v.getD []).length := by
  cases v with
  | none => simp [optListTruthy] at h
  | some l =>
    cases l with
    | nil => simp [optListTruthy] at h
    | cons a t => simp

lemma rasLen_pos_truthy (v : Option (Dict (Dict String))) (h : 0 < rasLen v) :
    optListTruthy v = true := by
  cases v with
  | none => simp [rasLen] at h
  | some d =>
    cases d with
    | nil => simp [rasLen] at h
    | cons a t => simp [optListTruthy]

/-- C1: for a manifest whose request type is `image_label_multiple_choice`
or `image_label_area_select`, if `multiple_choice_min_choices` (default 1
when absent) exceeds `multiple_choice_max_choices` (default 1 when
absent) then `validate_request_type` rejects the manifest with the
bounds error. -/
theorem c1_min_max_bound (data : ManifestData)
    (hty : data.request_type = some "image_label_multiple_choice" ∨
           data.request_type = some "image_label_area_select")
    (hgt : data.multiple_choice_min_choices.getD 1 >
           data.multiple_choice_max_choices.getD 1) :
    validate_request_type data =
      .error "multiple_choice_min_choices cannot be greater than multiple_choice_max_choices" := by
  unfold validate_request_type
  rcases hty with h | h <;> simp [h, optStrTruthy, hgt] <;> decide

/-- C1 witness: `multiple_choice_min_choices = 3`,
`multiple_choice_max_choices = 2` on `image_label_multiple_choice` is
rejected with the bounds error. -/
theorem c1_min_max_bound_witness :
    validate_request_type { emptyManifestData with
        request_type := some "image_label_multiple_choice",
        multiple_choice_min_choices := some 3,
        multiple_choice_max_choices := some 2 } =
      .error "multiple_choice_min_choices cannot be greater than multiple_choice_max_choices" :=
  c1_min_max_bound _ (Or.inl rfl) (by decide)

/-- C6: for a `multi_challenge` manifest, `validate_request_type` fails
when `multi_challenge_manifests` is absent or empty and passes when it is
non-empty. -/
theorem c6_multi_challenge (data : ManifestData)
    (h : data.request_type = some "multi_challenge") :
    (¬ optListTruthy data.multi_challenge_manifests →
       validate_request_type data =
         .error "multi_challenge requires multi_challenge_manifests.")
  ∧ (optListTruthy data.multi_challenge_manifests →
       validate_request_type data = .ok ()) := by
  unfold validate_request_type
  constructor <;> intro hm <;> simp [h, hm, optStrTruthy] <;> decide

/-- C6 witness: a `multi_challenge` manifest with one nested manifest
passes the request-type rule, and one with the list absent is rejected. -/
theorem c6_multi_challenge_witness :
    validate_request_type { emptyManifestData with
        request_type := some "multi_challenge",
        multi_challenge_manifests := some [⟨"image_label_binary"⟩] } = .ok ()
  ∧ validate_request_type { emptyManifestData with
        request_type := some "multi_challenge" } =
      .error "multi_challenge requires multi_challenge_manifests." :=
  ⟨(c6_multi_challenge _ rfl).2 (by decide),
   (c6_multi_challenge _ rfl).1 (by decide)⟩

/-- C3: when `taskdata` is truthy (present, non-empty) and `taskdata_uri`
is truthy, `validate_taskdata_uri` fails with the message built from both
values; when neither is set the rule passes. -/
theorem c3_taskdata_exclusivity (data : ManifestData) :
    (optListTruthy data.taskdata → optStrTruthy data.taskdata_uri →
       validate_taskdata_uri data =
         .error (taskdataUriErrorMsg (data.taskdata.getD [])
           (data.taskdata_uri.getD "")))
  ∧ (data.taskdata = none → data.taskdata_uri = none →
       validate_taskdata_uri data = .ok ()) := by
  constructor
  · intro h1 h2
    unfold validate_taskdata_uri
    rw [if_pos ⟨h1, optListTruthy_length_pos _ h1, h2⟩]
  · intro h1 h2
    unfold validate_taskdata_uri
    rw [if_neg]
    rintro ⟨ht, _, _⟩
    rw [h1] at ht
    simp [optListTruthy] at ht

/-- C3 witness: a manifest with one inline taskdata entry and a
`taskdata_uri` is rejected with the message citing both values; the empty
manifest passes the rule. -/
theorem c3_taskdata_exclusivity_witness :
    validate_taskdata_uri { emptyManifestData with
        taskdata := some [⟨"k1", some "http://example.com/a", "hash000001", none⟩],
        taskdata_uri := some "http://example.com/taskdata.json" } =
      .error (taskdataUriErrorMsg
        [⟨"k1", some "http://example.com/a", "hash000001", none⟩]
        "http://example.com/taskdata.json")
  ∧ validate_taskdata_uri emptyManifestData = .ok () :=
  ⟨(c3_taskdata_exclusivity _).1 (by decide) (by decide),
   (c3_taskdata_exclusivity _).2 rfl rfl⟩

/-- C10: a manifest whose `taskdata` is present but an empty list passes
`validate_taskdata_uri` even when `taskdata_uri` is set: the exclusivity
check only fires when `taskdata` has at least one element. -/
theorem c10_empty_taskdata_with_uri (data : ManifestData)
    (h : data.taskdata = some [])
    (_hu : optStrTruthy data.taskdata_uri) :
    validate_taskdata_uri data = .ok () := by
  unfold validate_taskdata_uri
  rw [if_neg]
  rintro ⟨ht, _, _⟩
  rw [h] at ht
  simp [optListTruthy] at ht

/-- C10 witness: `taskdata = []` together with a set `taskdata_uri`
passes the exclusivity rule. -/
theorem c10_empty_taskdata_with_uri_witness :
    validate_taskdata_uri { emptyManifestData with
        taskdata := some [],
        taskdata_uri := some "http://example.com/taskdata.json" } = .ok () :=
  c10_empty_taskdata_with_uri _ rfl (by decide)

/-- C4: for an `image_label_multiple_choice` manifest, the
restricted-answer-set rule rejects a set with at most one key (including
absent or empty) with the lower-bound message, accepts a set with 2 to 4
keys unchanged, and rejects a set with 5 or more keys with the
upper-bound message. -/
theorem c4_mc_answer_set_bounds (data : ManifestData)
    (h : data.request_type = some "image_label_multiple_choice") :
    (rasLen data.requester_restricted_answer_set ≤ 1 →
       validate_requester_restricted_answer_set data
           data.requester_restricted_answer_set =
         .error "image_label_multiple_choice needs at least 2+ options in requester_restricted_answer_set")
  ∧ (2 ≤ rasLen data.requester_restricted_answer_set →
     rasLen data.requester_restricted_answer_set ≤ 4 →
       validate_requester_restricted_answer_set data
           data.requester_restricted_answer_set =
         .ok (data, data.requester_restricted_answer_set))
  ∧ (4 < rasLen data.requester_restricted_answer_set →
       validate_requester_restricted_answer_set data
           data.requester_restricted_answer_set =
         .error "image_label_multiple_choice can not handle more than 4 options requester_restricted_answer_set") := by
  have hstep : rasAreaSelectStep data data.requester_restricted_answer_set =
      (data, data.requester_restricted_answer_set) := by
    unfold rasAreaSelectStep
    rw [if_neg]
    rintro ⟨hrt, _⟩
    rw [h] at hrt
    simp at hrt
  refine ⟨?_, ?_, ?_⟩
  · intro hle
    unfold validate_requester_restricted_answer_set rasMultipleChoiceCheck
    rw [hstep]
    dsimp only
    simp only [h]
    rw [if_neg (by decide), if_pos trivial, if_pos (Or.inr hle)]
  · intro h2 h4
    unfold validate_requester_restricted_answer_set rasMultipleChoiceCheck
    rw [hstep]
    dsimp only
    simp only [h]
    have htr : optListTruthy data.requester_restricted_answer_set = true :=
      rasLen_pos_truthy _ (by omega)
    have hnot1 : ¬(¬ optListTruthy data.requester_restricted_answer_set = true ∨
        rasLen data.requester_restricted_answer_set ≤ 1) := by
      rintro (hn | hle)
      · exact hn htr
      · omega
    rw [if_neg (by decide), if_pos trivial, if_neg hnot1,
      if_neg (show ¬ rasLen data.requester_restricted_answer_set > 4 by omega)]
  · intro h5
    unfold validate_requester_restricted_answer_set rasMultipleChoiceCheck
    rw [hstep]
    dsimp only
    simp only [h]
    have htr : optListTruthy data.requester_restricted_answer_set = true :=
      rasLen_pos_truthy _ (by omega)
    have hnot1 : ¬(¬ optListTruthy data.requester_restricted_answer_set = true ∨
        rasLen data.requester_restricted_answer_set ≤ 1) := by
      rintro (hn | hle)
      · exact hn htr
      · omega
    rw [if_neg (by decide), if_pos trivial, if_neg hnot1, if_pos h5]

/-- C4 witness: on `image_label_multiple_choice`, a 2-key set is accepted
unchanged, a 1-key set is rejected with the lower-bound message, and a
5-key set is rejected with the upper-bound message. -/
theorem c4_mc_answer_set_bounds_witness :
    validate_requester_restricted_answer_set
        { emptyManifestData with
            request_type := some "image_label_multiple_choice",
            requester_restricted_answer_set := some [("a", []), ("b", [])] }
        (some [("a", []), ("b", [])]) =
      .ok ({ emptyManifestData with
            request_type := some "image_label_multiple_choice",
            requester_restricted_answer_set := some [("a", []), ("b", [])] },
        some [("a", []), ("b", [])])
  ∧ validate_requester_restricted_answer_set
        { emptyManifestData with
            request_type := some "image_label_multiple_choice",
            requester_restricted_answer_set := some [("a", [])] }
        (some [("a", [])]) =
      .error "image_label_multiple_choice needs at least 2+ options in requester_restricted_answer_set"
  ∧ validate_requester_restricted_answer_set
        { emptyManifestData with
            request_type := some "image_label_multiple_choice",
            requester_restricted_answer_set :=
              some [("a", []), ("b", []), ("c", []), ("d", []), ("e", [])] }
        (some [("a", []), ("b", []), ("c", []), ("d", []), ("e", [])]) =
      .error "image_label_multiple_choice can not handle more than 4 options requester_restricted_answer_set" :=
  ⟨(c4_mc_answer_set_bounds _ rfl).2.1 (by decide) (by decide),
   (c4_mc_answer_set_bounds _ rfl).1 (by decide),
   (c4_mc_answer_set_bounds _ rfl).2.2 (by decide)⟩

/-- C5: for an `image_label_area_select` manifest whose restricted answer
set is absent or empty, the rule succeeds and the returned document holds
the single synthetic entry with key `label` and an empty inner dict. -/
theorem c5_area_select_default (data : ManifestData)
    (h : data.request_type = some "image_label_area_select")
    (hempty : rasLen data.requester_restricted_answer_set = 0) :
    validate_requester_restricted_answer_set data
        data.requester_restricted_answer_set =
      .ok ({ data with requester_restricted_answer_set := some syntheticLabelSet },
        some syntheticLabelSet) := by
  unfold validate_requester_restricted_answer_set
  have hstep : rasAreaSelectStep data data.requester_restricted_answer_set =
      ({ data with requester_restricted_answer_set := some syntheticLabelSet },
        some syntheticLabelSet) := by
    unfold rasAreaSelectStep
    rw [if_pos ⟨h, Or.inr hempty⟩]
  rw [hstep]
  dsimp only
  unfold rasMultipleChoiceCheck
  simp [h, optStrTruthy]
  decide

/-- C5 witness: an `image_label_area_select` manifest with no restricted
answer set is accepted and normalized to the synthetic single-label set. -/
theorem c5_area_select_default_witness :
    validate_requester_restricted_answer_set
        { emptyManifestData with request_type := some "image_label_area_select" }
        none =
      .ok ({ emptyManifestData with
              request_type := some "image_label_area_select",
              requester_restricted_answer_set := some syntheticLabelSet },
        some syntheticLabelSet) :=
  c5_area_select_default
    { emptyManifestData with request_type := some "image_label_area_select" }
    rfl rfl

/-- C8: a TaskData entry accepted by `validate_datapoint_uri` has a
`datapoint_uri` of length at least 10 or a present `datapoint_text`, and
an entry with both fields absent is always rejected. -/
theorem c8_datapoint_uri_or_text (data : TaskData) :
    (validate_datapoint_uri data data.datapoint_uri = .ok () →
       (∃ s, data.datapoint_uri = some s ∧ 10 ≤ s.length)
     ∨ (∃ t, data.datapoint_text = some t))
  ∧ (data.datapoint_uri = none → data.datapoint_text = none →
       validate_datapoint_uri data data.datapoint_uri =
         .error "datapoint_uri is missing.") := by
  constructor
  · intro hok
    by_cases ht : optListTruthy data.datapoint_text
    · right
      cases htx : data.datapoint_text with
      | none => rw [htx] at ht; simp [optListTruthy] at ht
      | some t => exact ⟨t, rfl⟩
    · left
      unfold validate_datapoint_uri at hok
      by_cases hv : optStrTruthy data.datapoint_uri
      · cases hvx : data.datapoint_uri with
        | none => rw [hvx] at hv; simp [optStrTruthy] at hv
        | some s =>
          refine ⟨s, rfl, ?_⟩
          by_contra hlen
          push_neg at hlen
          rw [if_neg, if_pos ⟨hv, by rw [hvx]; simpa using hlen, ht⟩] at hok
          · simp at hok
          · rintro ⟨hnv, _⟩
            exact hnv hv
      · rw [if_pos ⟨hv, ht⟩] at hok
        simp at hok
  · intro h1 h2
    unfold validate_datapoint_uri
    rw [if_pos]
    exact ⟨by rw [h1]; simp [optStrTruthy], by rw [h2]; simp [optListTruthy]⟩

/-- C8 witness: a TaskData entry with both `datapoint_uri` and
`datapoint_text` absent is rejected. -/
theorem c8_datapoint_uri_or_text_witness :
    validate_datapoint_uri ⟨"k1", none, "hash000001", none⟩ none =
      .error "datapoint_uri is missing." :=
  (c8_datapoint_uri_or_text ⟨"k1", none, "hash000001", none⟩).2 rfl rfl

/-- Trace of the calls `traverseLoop` makes with the recording callback:
each entry in order, carrying the current flag on the first entry and
false afterwards. -/
def entryTrace : List (Option String × Json) → Bool →
    List (Option String × Json × Bool)
  | [], _ => []
  | (k, v) :: rest, flag => (k, v, flag) :: entryTrace rest false

lemma traverseLoop_record (l : List (Option String × Json))
    (st : List (Option String × Json × Bool)) (b : Bool) (c : Nat) :
    traverseLoop recordEntry st l b c = .ok (st ++ entryTrace l b, c + l.length) := by
  induction l generalizing st b c with
  | nil => simp [traverseLoop, entryTrace]
  | cons kv rest ih =>
    obtain ⟨k, v⟩ := kv
    rw [traverseLoop]
    simp only [recordEntry]
    rw [ih]
    simp [entryTrace]
    omega

lemma entryTrace_false (l : List (Option String × Json)) :
    entryTrace l false = l.map fun kv => (kv.1, kv.2, false) := by
  induction l with
  | nil => rfl
  | cons kv rest ih =>
    obtain ⟨k, v⟩ := kv
    simp [entryTrace, ih]

lemma enumFrom_map_flag (b : Bool) (l : List (Option String × Json)) (n : Nat) :
    (List.enumFrom (n + 1) l).map
        (fun p => (p.2.1, p.2.2, b && decide (p.1 = 0))) =
      l.map fun kv => (kv.1, kv.2, false) := by
  induction l generalizing n with
  | nil => rfl
  | cons kv rest ih =>
    obtain ⟨k, v⟩ := kv
    simp [List.enumFrom, ih (n + 1)]

lemma entryTrace_enum (l : List (Option String × Json)) (b : Bool) :
    entryTrace l b = (l.enum).map fun p => (p.2.1, p.2.2, b && decide (p.1 = 0)) := by
  cases l with
  | nil => rfl
  | cons kv rest =>
    obtain ⟨k, v⟩ := kv
    simp [List.enum, List.enumFrom, entryTrace, entryTrace_false,
      enumFrom_map_flag b rest 0]

/-- C7: the walker calls the per-entry validator once per top-level
member in document order, with the content-type flag carrying the
initial flag on the very first entry (hence true only there when
requested) and false for every later entry, and returns the number of
members; dict members contribute their keys, list members the key
`none`. -/
theorem c7_walker_per_entry (fs : List (String × Json)) (xs : List Json) (b : Bool) :
    traverse_json_entries (Json.obj fs)
        ([] : List (Option String × Json × Bool)) recordEntry b =
      .ok (((fs.map fun kv => ((some kv.1 : Option String), kv.2)).enum).map
          (fun p => (p.2.1, p.2.2, b && decide (p.1 = 0))), fs.length)
  ∧ traverse_json_entries (Json.arr xs)
        ([] : List (Option String × Json × Bool)) recordEntry b =
      .ok (((xs.map fun v => ((none : Option String), v)).enum).map
          (fun p => (p.2.1, p.2.2, b && decide (p.1 = 0))), xs.length) := by
  constructor <;>
    simp [traverse_json_entries, traverseLoop_record, entryTrace_enum]

/-- Shape test: is the decoded body a JSON object or a JSON array. -/
def isJsonCollection : Json → Bool
  | .obj _ => true
  | .arr _ => true
  | _ => false

/-- C2 counterexample: on a decoded body that is a JSON string, which is
neither an object nor an array, the walker does not fail with any error:
it returns the normal entry count 0. -/
theorem c2_counterexample :
    traverse_json_entries (Json.str "not-a-collection")
        ([] : List (Option String × Json × Bool)) recordEntry true =
      .ok ([], 0) := rfl

/-- C2 amended: for a decoded body that is neither a JSON object nor a
JSON array, `traverse_json_entries` itself succeeds with entry count 0,
and it is the caller `validate_manifest_uris` that then rejects the
manifest with the empty-collection error for that key. -/
theorem c2_amended_non_collection (body : Json) (uri_key : String) (st : σ)
    (callback : σ → Option String → Json → Bool → Except String σ) (b : Bool)
    (h : isJsonCollection body = false) :
    traverse_json_entries body st callback b = .ok (st, 0)
  ∧ validate_fetched_entries uri_key body st callback b =
      .error ("fetched " ++ uri_key ++ " is empty") := by
  have htrav : traverse_json_entries body st callback b = .ok (st, 0) := by
    cases body with
    | obj fields => simp [isJsonCollection] at h
    | arr xs => simp [isJsonCollection] at h
    | null => rfl
    | bool b2 => rfl
    | num n => rfl
    | str s => rfl
  refine ⟨htrav, ?_⟩
  unfold validate_fetched_entries
  rw [htrav]
  simp

/-- C2 amended witness: the decoded body `5` yields entry count 0 from
the walker and the empty-collection rejection from the caller. -/
theorem c2_amended_non_collection_witness :
    traverse_json_entries (Json.num 5)
        ([] : List (Option String × Json × Bool)) recordEntry true = .ok ([], 0)
  ∧ validate_fetched_entries "taskdata_uri" (Json.num 5)
        ([] : List (Option String × Json × Bool)) recordEntry true =
      .error "fetched taskdata_uri is empty" :=
  c2_amended_non_collection (Json.num 5) "taskdata_uri" [] recordEntry true rfl

lemma rasAreaSelectStep_fix (d d1 : ManifestData) (v1 : Option (Dict (Dict String)))
    (h : rasAreaSelectStep d d.requester_restricted_answer_set = (d1, v1)) :
    d1.requester_restricted_answer_set = v1 ∧
    d1.request_type = d.request_type ∧
    rasAreaSelectStep d1 d1.requester_restricted_answer_set = (d1, v1) := by
  unfold rasAreaSelectStep at h ⊢
  by_cases hc : d.request_type = some "image_label_area_select" ∧
      (¬ optListTruthy d.requester_restricted_answer_set = true ∨
        rasLen d.requester_restricted_answer_set = 0)
  · rw [if_pos hc, Prod.mk.injEq] at h
    obtain ⟨hd, hv⟩ := h
    subst hd
    subst hv
    refine ⟨rfl, rfl, ?_⟩
    rw [if_neg]
    rintro ⟨-, hn | hn⟩
    · simp [optListTruthy, syntheticLabelSet] at hn
    · simp [rasLen, syntheticLabelSet] at hn
  · rw [if_neg hc, Prod.mk.injEq] at h
    obtain ⟨hd, hv⟩ := h
    subst hd
    subst hv
    exact ⟨rfl, rfl, if_neg hc⟩

lemma validate_ras_fix (d d1 : ManifestData) (v1 : Option (Dict (Dict String)))
    (h : validate_requester_restricted_answer_set d
        d.requester_restricted_answer_set = .ok (d1, v1)) :
    validate_requester_restricted_answer_set d1
        d1.requester_restricted_answer_set = .ok (d1, v1) := by
  unfold validate_requester_restricted_answer_set at h ⊢
  by_cases htr : optStrTruthy d.request_type
  case neg =>
    rw [if_pos (by simpa using htr)] at h
    simp at h
  rw [if_neg (by simpa using htr)] at h
  rcases hstep : rasAreaSelectStep d d.requester_restricted_answer_set with ⟨da, va⟩
  rw [hstep] at h
  dsimp only at h
  obtain ⟨-, hrt, hstep2⟩ := rasAreaSelectStep_fix d da va hstep
  rcases hmc : rasMultipleChoiceCheck d.request_type va with e | u
  · rw [hmc] at h
    simp at h
  · cases u
    rw [hmc] at h
    simp only [Except.ok.injEq, Prod.mk.injEq] at h
    obtain ⟨hda, hva⟩ := h
    subst hda
    subst hva
    rw [if_neg (by rw [hrt]; simpa using htr)]
    rw [hstep2]
    dsimp only
    rw [hrt, hmc]

/-- C9: the conditional-rule stage of manifest validation is idempotent:
a document it accepts (after the possible restricted-answer-set
normalization) is accepted again unchanged when validated a second
time. -/
theorem c9_idempotent (d d1 : ManifestData)
    (h : run_manifest_rules d = .ok d1) :
    run_manifest_rules d1 = .ok d1 := by
  unfold run_manifest_rules at h ⊢
  rcases hras : validate_requester_restricted_answer_set d
      d.requester_restricted_answer_set with e | p
  · rw [hras] at h
    simp [Except.bind] at h
  obtain ⟨da, va⟩ := p
  rw [hras] at h
  simp only [Except.bind] at h
  rcases hq : validate_requester_question_example da
      da.requester_question_example with e | u
  · rw [hq] at h
    simp [Except.bind] at h
  cases u
  rw [hq] at h
  simp only [Except.bind] at h
  rcases hrt : validate_request_type da with e | u
  · rw [hrt] at h
    simp [Except.bind] at h
  cases u
  rw [hrt] at h
  simp only [Except.bind] at h
  rcases htd : validate_taskdata_uri da with e | u
  · rw [htd] at h
    simp [Except.bind] at h
  cases u
  rw [htd] at h
  simp only [Except.bind] at h
  rcases hgt : validate_groundtruth da with e | u
  · rw [hgt] at h
    simp [Except.bind] at h
  cases u
  rw [hgt] at h
  simp only [Except.bind, Except.ok.injEq] at h
  subst h
  rw [validate_ras_fix d da va hras]
  simp only [Except.bind]
  rw [hq, hrt, htd, hgt]

/-- C9 witness: an accepted and normalized `image_label_area_select`
document is accepted again unchanged. -/
theorem c9_idempotent_witness :
    run_manifest_rules { emptyManifestData with
        request_type := some "image_label_area_select",
        requester_restricted_answer_set := some syntheticLabelSet } =
      .ok { emptyManifestData with
        request_type := some "image_label_area_select",
        requester_restricted_answer_set := some syntheticLabelSet } :=
  c9_idempotent
    { emptyManifestData with request_type := some "image_label_area_select" }
    { emptyManifestData with
        request_type := some "image_label_area_select",
        requester_restricted_answer_set := some syntheticLabelSet }
    (by rfl)

end Basemodels
